import Mathlib

/-!
Verification of the natural-language specification of the `novel_agent`
LLM-response parsers against a shallow embedding of the Python source.

Python strings are embedded as `List Char` (`PyStr`); the handful of
`str` methods the parsers use (`strip`, `startswith`, `replace(pat, '')`,
`split('\n')`, `split(':', 1)`, `upper`, `int(...)`) are defined below with
Python's semantics on the ASCII fragment the parsers exercise.

Each `_parse_*` routine from the source is embedded as a fold of a step
function over the list of lines, mirroring the Python `for line in lines`
loop statement by statement.  Routines that contain Python operations that
can raise (`dict[key]` reads, `int(...)`) additionally get an `Except`
embedding in which those operations are fallible, used to state that the
parsers never raise.
-/

namespace NovelAgent

/-- Python `str` values, embedded as their character lists. -/
abbrev PyStr := List Char

/-- Embed a Lean string literal as a `PyStr`. -/
def pystr (s : String) : PyStr := s.data

/-- Python whitespace test used by `str.strip()` (ASCII fragment:
space, tab, newline, carriage return, vertical tab, form feed). -/
def pyIsSpace (c : Char) : Bool :=
  c = ' ' || c = '\t' || c = '\n' || c = '\r' || c = '\x0b' || c = '\x0c'

/-- Python `s.strip()`: drop leading and trailing whitespace. -/
def pyStrip (s : PyStr) : PyStr :=
  ((s.dropWhile pyIsSpace).reverse.dropWhile pyIsSpace).reverse

/-- Python `s.startswith(pre)`. -/
def pyStartsWith (s pre : PyStr) : Bool := pre.isPrefixOf s

/-- Worker for `pyDel`: `k` is the number of characters still to skip from
an occurrence of the pattern that has already been matched. -/
def pyDelGo (pat : PyStr) : Nat → PyStr → PyStr
  | _, [] => []
  | Nat.succ k, _ :: rest => pyDelGo pat k rest
  | 0, c :: rest =>
    if !pat.isEmpty && pat.isPrefixOf (c :: rest) then
      pyDelGo pat (pat.length - 1) rest
    else
      c :: pyDelGo pat 0 rest

/-- Python `s.replace(pat, '')`: delete every non-overlapping occurrence of
`pat`, scanning left to right.  (The parsers only ever call `replace` with
the empty string as replacement, and with a non-empty pattern.) -/
def pyDel (pat : PyStr) (s : PyStr) : PyStr := pyDelGo pat 0 s

/-- Python `s.split('\n')`: note `''.split('\n') == ['']`. -/
def pyLines : PyStr → List PyStr
  | [] => [[]]
  | c :: rest =>
    if c = '\n' then [] :: pyLines rest
    else
      match pyLines rest with
      | l :: ls => (c :: l) :: ls
      | [] => [[c]]

/-- Python `s.upper()` (ASCII fragment: only `a`-`z` are mapped). -/
def pyUpper (s : PyStr) : PyStr := s.map Char.toUpper

/-- Python `'\n'.join(parts)`. -/
def pyJoinNl (parts : List PyStr) : PyStr := List.intercalate (pystr "\n") parts

/-- Digit-string value, `none` if empty or not all ASCII digits. -/
def pyDigits : PyStr → Option Nat
  | [] => none
  | ds =>
    if ds.all Char.isDigit then
      some (ds.foldl (fun acc c => acc * 10 + (c.toNat - 48)) 0)
    else none

/-- Python `int(s)` (ASCII fragment: optional sign, decimal digits,
surrounding whitespace allowed); `none` models a raised `ValueError`. -/
def pyInt (s : PyStr) : Option Int :=
  match pyStrip s with
  | '+' :: ds => (pyDigits ds).map fun n => (n : Int)
  | '-' :: ds => (pyDigits ds).map fun n => -(n : Int)
  | ds => (pyDigits ds).map fun n => (n : Int)

/-- Python `s.split(sep, 1)` restricted to a single-character separator:
split at the first occurrence only. -/
def pySplitOnce (sep : Char) : PyStr → List PyStr
  | [] => [[]]
  | c :: rest =>
    if c = sep then [[], rest]
    else
      match pySplitOnce sep rest with
      | a :: bs => (c :: a) :: bs
      | [] => [[c]]

/-- Substring test: does `pat` occur (contiguously) inside `s`? -/
def pyContainsSub (s pat : PyStr) : Bool :=
  s.tails.any fun t => pat.isPrefixOf t

/-! ### `_parse_plot_ideas` (src/novel_agent/modules/brainstorming.py) -/

/-- One plot-idea record: the Python dict with keys among
`title`, `premise`, `conflict`, `hook`; `none` means absent. -/
structure PlotIdea where
  title : Option PyStr := none
  premise : Option PyStr := none
  conflict : Option PyStr := none
  hook : Option PyStr := none
deriving DecidableEq, Repr

/-- Python dict truthiness: `if current_idea:` is false iff no key is set. -/
def PlotIdea.isEmpty (r : PlotIdea) : Bool :=
  r.title.isNone && r.premise.isNone && r.conflict.isNone && r.hook.isNone

/-- The four field keys of a plot-idea record. -/
inductive PlotField
  | title | premise | conflict | hook
deriving DecidableEq, Repr

/-- The label recognised for each plot-idea field. -/
def plotLabel : PlotField → PyStr
  | .title => pystr "Title:"
  | .premise => pystr "Premise:"
  | .conflict => pystr "Conflict:"
  | .hook => pystr "Hook:"

/-- Record field lookup. -/
def PlotIdea.get (r : PlotIdea) : PlotField → Option PyStr
  | .title => r.title
  | .premise => r.premise
  | .conflict => r.conflict
  | .hook => r.hook

/-- Record field assignment (`current_idea[field] = v`). -/
def PlotIdea.set (r : PlotIdea) : PlotField → PyStr → PlotIdea
  | .title, v => { r with title := some v }
  | .premise, v => { r with premise := some v }
  | .conflict, v => { r with conflict := some v }
  | .hook, v => { r with hook := some v }

/-- Which branch of the `if`/`elif` label chain of `_parse_plot_ideas`
fires on a (stripped) line; `none` means no label matched. -/
def plotBranch (line : PyStr) : Option PlotField :=
  if pyStartsWith line (pystr "Title:") then some .title
  else if pyStartsWith line (pystr "Premise:") then some .premise
  else if pyStartsWith line (pystr "Conflict:") then some .conflict
  else if pyStartsWith line (pystr "Hook:") then some .hook
  else none

/-- The value stored when a plot-idea label line is processed:
`line.replace(label, '').strip()`. -/
def plotFieldVal (f : PlotField) (line : PyStr) : PyStr :=
  pyStrip (pyDel (plotLabel f) line)

/-- Loop state of `_parse_plot_ideas`: the accumulated `ideas` list and the
`current_idea` dict. -/
structure PlotState where
  ideas : List PlotIdea := []
  current : PlotIdea := {}
deriving DecidableEq, Repr

/-- The guard of the multi-line-premise continuation branch of
`_parse_plot_ideas`:
`'premise' in current_idea and not line.startswith(('Title:', 'Conflict:',
'Hook:', 'IDEA', '---', ''))`.  Note the `''` in the tuple, taken verbatim
from the source. -/
def plotContGuard (cur : PlotIdea) (line : PyStr) : Bool :=
  cur.premise.isSome &&
    !(pyStartsWith line (pystr "Title:") || pyStartsWith line (pystr "Conflict:") ||
      pyStartsWith line (pystr "Hook:") || pyStartsWith line (pystr "IDEA") ||
      pyStartsWith line (pystr "---") || pyStartsWith line (pystr ""))

/-- One iteration of the `for line in lines` loop of `_parse_plot_ideas`. -/
def stepPlot (st : PlotState) (raw : PyStr) : PlotState :=
  let line := pyStrip raw
  match plotBranch line with
  | some .title =>
    { ideas := st.ideas ++ (if st.current.isEmpty then [] else [st.current]),
      current := { title := some (plotFieldVal .title line) } }
  | some .premise => { st with current := { st.current with premise := some (plotFieldVal .premise line) } }
  | some .conflict => { st with current := { st.current with conflict := some (plotFieldVal .conflict line) } }
  | some .hook => { st with current := { st.current with hook := some (plotFieldVal .hook line) } }
  | none =>
    if plotContGuard st.current line then
      { st with current := { st.current with premise := st.current.premise.map fun p => p ++ pystr " " ++ line } }
    else st

/-- The epilogue of `_parse_plot_ideas`: `if current_idea:
ideas.append(current_idea)` then `return ideas`. -/
def finishPlot (st : PlotState) : List PlotIdea :=
  st.ideas ++ (if st.current.isEmpty then [] else [st.current])

/-- `_parse_plot_ideas` on an already-split list of lines. -/
def parsePlotIdeasL (lines : List PyStr) : List PlotIdea :=
  finishPlot (lines.foldl stepPlot {})

/-- `BrainstormingModule._parse_plot_ideas`. -/
def parse_plot_ideas (text : PyStr) : List PlotIdea :=
  parsePlotIdeasL (pyLines text)

/-! ### `_parse_characters` (src/novel_agent/modules/character_generator.py) -/

/-- The nine field keys of `label_mappings`, in dict insertion order. -/
inductive CharField
  | name | age | background | personality | motivation | flaw | arc | fit | role
deriving DecidableEq, Repr

/-- `label_mappings`: the English and Chinese aliases of each field, in
source order. -/
def charLabels : CharField → List PyStr
  | .name => [pystr "Name:", pystr "姓名:", pystr "名字:"]
  | .age => [pystr "Age:", pystr "年龄:", pystr "年齡:"]
  | .background => [pystr "Background:", pystr "背景:", pystr "经历:"]
  | .personality => [pystr "Personality:", pystr "性格:", pystr "个性:"]
  | .motivation => [pystr "Motivation:", pystr "动机:", pystr "目标:"]
  | .flaw => [pystr "Flaw:", pystr "缺陷:", pystr "弱点:"]
  | .arc => [pystr "Arc:", pystr "成长:", pystr "发展:"]
  | .fit => [pystr "Fit:", pystr "适合:", pystr "契合:"]
  | .role => [pystr "Role:", pystr "角色:", pystr "身份:"]

/-- Iteration order of `label_mappings.items()`. -/
def charFieldOrder : List CharField :=
  [.name, .age, .background, .personality, .motivation, .flaw, .arc, .fit, .role]

/-- The double loop `for field, labels in label_mappings.items(): for label
in labels: if line.startswith(label): ...` — the first (field, label) pair
whose label is a prefix of the line. -/
def findCharLabel (line : PyStr) : Option (CharField × PyStr) :=
  charFieldOrder.findSome? fun f =>
    (charLabels f).findSome? fun lab =>
      if pyStartsWith line lab then some (f, lab) else none

/-- One character record: the Python dict with the nine canonical keys. -/
structure CharRec where
  name : Option PyStr := none
  age : Option PyStr := none
  background : Option PyStr := none
  personality : Option PyStr := none
  motivation : Option PyStr := none
  flaw : Option PyStr := none
  arc : Option PyStr := none
  fit : Option PyStr := none
  role : Option PyStr := none
deriving DecidableEq, Repr

/-- Python dict truthiness of `current_char`. -/
def CharRec.isEmpty (r : CharRec) : Bool :=
  r.name.isNone && r.age.isNone && r.background.isNone && r.personality.isNone &&
  r.motivation.isNone && r.flaw.isNone && r.arc.isNone && r.fit.isNone && r.role.isNone

/-- Record field lookup (`current_char[f]` when present). -/
def CharRec.get (r : CharRec) : CharField → Option PyStr
  | .name => r.name
  | .age => r.age
  | .background => r.background
  | .personality => r.personality
  | .motivation => r.motivation
  | .flaw => r.flaw
  | .arc => r.arc
  | .fit => r.fit
  | .role => r.role

/-- Record field assignment (`current_char[f] = v`). -/
def CharRec.set (r : CharRec) : CharField → PyStr → CharRec
  | .name, v => { r with name := some v }
  | .age, v => { r with age := some v }
  | .background, v => { r with background := some v }
  | .personality, v => { r with personality := some v }
  | .motivation, v => { r with motivation := some v }
  | .flaw, v => { r with flaw := some v }
  | .arc, v => { r with arc := some v }
  | .fit, v => { r with fit := some v }
  | .role, v => { r with role := some v }

/-- Loop state of `_parse_characters`. -/
structure CharState where
  chars : List CharRec := []
  current : CharRec := {}
  currentField : Option CharField := none
deriving DecidableEq, Repr

/-- The section-marker prefixes skipped by the continuation branch of
`_parse_characters`. -/
def charBoundary (line : PyStr) : Bool :=
  pyStartsWith line (pystr "---") || pyStartsWith line (pystr "PROTAGONIST") ||
  pyStartsWith line (pystr "CHARACTER") || pyStartsWith line (pystr "主角") ||
  pyStartsWith line (pystr "反派") || pyStartsWith line (pystr "配角")

/-- One iteration of the `for line in lines` loop of `_parse_characters`. -/
def stepChar (st : CharState) (raw : PyStr) : CharState :=
  let line := pyStrip raw
  match findCharLabel line with
  | some (f, lab) =>
    let st1 :=
      if !st.current.isEmpty && f = CharField.name then
        { st with chars := st.chars ++ [st.current], current := {} }
      else st
    { st1 with current := st1.current.set f (pyStrip (pyDel lab line)),
               currentField := some f }
  | none =>
    match st.currentField with
    | some cf =>
      if !line.isEmpty && !charBoundary line then
        match st.current.get cf with
        | some v => { st with current := st.current.set cf (v ++ pystr " " ++ line) }
        | none => st
      else st
    | none => st

/-- `_parse_characters` on an already-split list of lines. -/
def parseCharsL (lines : List PyStr) : List CharRec :=
  let st := lines.foldl stepChar {}
  st.chars ++ (if st.current.isEmpty then [] else [st.current])

/-- `CharacterGeneratorModule._parse_characters`. -/
def parse_characters (text : PyStr) : List CharRec :=
  parseCharsL (pyLines text)

/-! ### `_parse_chapter_outline` (src/novel_agent/modules/outliner.py) -/

/-- One chapter record; `number` holds the Python int, the other keys the
string values. -/
structure ChapterRec where
  number : Option Int := none
  title : Option PyStr := none
  pov : Option PyStr := none
  setting : Option PyStr := none
  events : Option PyStr := none
  character_development : Option PyStr := none
  pacing : Option PyStr := none
  story_beats : Option PyStr := none
deriving DecidableEq, Repr

/-- Python dict truthiness of `current_chapter`. -/
def ChapterRec.isEmpty (r : ChapterRec) : Bool :=
  r.number.isNone && r.title.isNone && r.pov.isNone && r.setting.isNone &&
  r.events.isNone && r.character_development.isNone && r.pacing.isNone &&
  r.story_beats.isNone

/-- The string-valued keys `current_field` can name in
`_parse_chapter_outline` (`number` is never a continuation target). -/
inductive ChapField
  | title | pov | setting | events | character_development | pacing | story_beats
deriving DecidableEq, Repr

/-- String-field lookup on a chapter record. -/
def ChapterRec.get (r : ChapterRec) : ChapField → Option PyStr
  | .title => r.title
  | .pov => r.pov
  | .setting => r.setting
  | .events => r.events
  | .character_development => r.character_development
  | .pacing => r.pacing
  | .story_beats => r.story_beats

/-- String-field assignment on a chapter record. -/
def ChapterRec.set (r : ChapterRec) : ChapField → PyStr → ChapterRec
  | .title, v => { r with title := some v }
  | .pov, v => { r with pov := some v }
  | .setting, v => { r with setting := some v }
  | .events, v => { r with events := some v }
  | .character_development, v => { r with character_development := some v }
  | .pacing, v => { r with pacing := some v }
  | .story_beats, v => { r with story_beats := some v }

/-- Loop state of `_parse_chapter_outline`. -/
structure ChapState where
  chapters : List ChapterRec := []
  current : ChapterRec := {}
  currentField : Option ChapField := none
deriving DecidableEq, Repr

/-- Which labelled branch of the `_parse_chapter_outline` chain fires on a
(stripped) line; the `CHAPTER` record-start branch is handled separately. -/
def chapBranch (line : PyStr) : Option ChapField :=
  if pyStartsWith line (pystr "POV:") then some .pov
  else if pyStartsWith line (pystr "Setting:") then some .setting
  else if pyStartsWith line (pystr "Events:") then some .events
  else if pyStartsWith line (pystr "Character Development:") then some .character_development
  else if pyStartsWith line (pystr "Pacing:") then some .pacing
  else if pyStartsWith line (pystr "Story Beats:") then some .story_beats
  else none

/-- The label string each `chapBranch` field strips from its line. -/
def chapLabel : ChapField → PyStr
  | .title => pystr "CHAPTER"
  | .pov => pystr "POV:"
  | .setting => pystr "Setting:"
  | .events => pystr "Events:"
  | .character_development => pystr "Character Development:"
  | .pacing => pystr "Pacing:"
  | .story_beats => pystr "Story Beats:"

/-- The prefixes the continuation branch of `_parse_chapter_outline`
refuses to append. -/
def chapBoundary (line : PyStr) : Bool :=
  pyStartsWith line (pystr "---") || pyStartsWith line (pystr "CHAPTER") ||
  pyStartsWith line (pystr "POV:") || pyStartsWith line (pystr "Setting:") ||
  pyStartsWith line (pystr "Events:") || pyStartsWith line (pystr "Character") ||
  pyStartsWith line (pystr "Pacing:") || pyStartsWith line (pystr "Story")

/-- One iteration of the `for line in lines` loop of
`_parse_chapter_outline`. -/
def stepChapter (st : ChapState) (raw : PyStr) : ChapState :=
  let line := pyStrip raw
  if pyStartsWith line (pystr "CHAPTER ") && line.contains ':' then
    let chapters := st.chapters ++ (if st.current.isEmpty then [] else [st.current])
    let parts := pySplitOnce ':' line
    let numberPart := pyStrip (pyDel (pystr "CHAPTER") (parts.headD []))
    let title := if parts.length > 1 then pyStrip (parts.getD 1 []) else pystr "Untitled"
    let number := (pyInt numberPart).getD ((chapters.length : Int) + 1)
    { chapters := chapters,
      current := { number := some number, title := some title },
      currentField := some ChapField.title }
  else
    match chapBranch line with
    | some f =>
      { st with current := st.current.set f (pyStrip (pyDel (chapLabel f) line)),
                currentField := some f }
    | none =>
      match st.currentField with
      | some cf =>
        if !line.isEmpty && !chapBoundary line then
          match st.current.get cf with
          | some v => { st with current := st.current.set cf (v ++ pystr " " ++ line) }
          | none => st
        else st
      | none => st

/-- `_parse_chapter_outline` on an already-split list of lines. -/
def parseChaptersL (lines : List PyStr) : List ChapterRec :=
  let st := lines.foldl stepChapter {}
  st.chapters ++ (if st.current.isEmpty then [] else [st.current])

/-- `OutlinerModule._parse_chapter_outline`. -/
def parse_chapter_outline (text : PyStr) : List ChapterRec :=
  parseChaptersL (pyLines text)

/-! ### `_parse_scenes` (src/novel_agent/modules/outliner.py) -/

/-- One scene record; all values strings, `number` included. -/
structure SceneRec where
  number : Option PyStr := none
  setting : Option PyStr := none
  characters : Option PyStr := none
  action : Option PyStr := none
  purpose : Option PyStr := none
  tone : Option PyStr := none
deriving DecidableEq, Repr

/-- Python dict truthiness of `current_scene`. -/
def SceneRec.isEmpty (r : SceneRec) : Bool :=
  r.number.isNone && r.setting.isNone && r.characters.isNone &&
  r.action.isNone && r.purpose.isNone && r.tone.isNone

/-- The six field keys of a scene record. -/
inductive SceneField
  | number | setting | characters | action | purpose | tone
deriving DecidableEq, Repr

/-- Field lookup on a scene record. -/
def SceneRec.get (r : SceneRec) : SceneField → Option PyStr
  | .number => r.number
  | .setting => r.setting
  | .characters => r.characters
  | .action => r.action
  | .purpose => r.purpose
  | .tone => r.tone

/-- Field assignment on a scene record. -/
def SceneRec.set (r : SceneRec) : SceneField → PyStr → SceneRec
  | .number, v => { r with number := some v }
  | .setting, v => { r with setting := some v }
  | .characters, v => { r with characters := some v }
  | .action, v => { r with action := some v }
  | .purpose, v => { r with purpose := some v }
  | .tone, v => { r with tone := some v }

/-- Loop state of `_parse_scenes`. -/
structure SceneState where
  scenes : List SceneRec := []
  current : SceneRec := {}
  currentField : Option SceneField := none
deriving DecidableEq, Repr

/-- Which branch of the `_parse_scenes` label chain fires on a (stripped)
line; `.number` is the `SCENE ` record-start branch. -/
def sceneBranch (line : PyStr) : Option SceneField :=
  if pyStartsWith line (pystr "SCENE ") then some .number
  else if pyStartsWith line (pystr "Setting:") then some .setting
  else if pyStartsWith line (pystr "Characters:") then some .characters
  else if pyStartsWith line (pystr "Action:") then some .action
  else if pyStartsWith line (pystr "Purpose:") then some .purpose
  else if pyStartsWith line (pystr "Tone:") then some .tone
  else none

/-- The label string each scene field strips from its line. -/
def sceneLabel : SceneField → PyStr
  | .number => pystr "SCENE"
  | .setting => pystr "Setting:"
  | .characters => pystr "Characters:"
  | .action => pystr "Action:"
  | .purpose => pystr "Purpose:"
  | .tone => pystr "Tone:"

/-- The prefixes the continuation branch of `_parse_scenes` refuses to
append. -/
def sceneBoundary (line : PyStr) : Bool :=
  pyStartsWith line (pystr "---") || pyStartsWith line (pystr "SCENE") ||
  pyStartsWith line (pystr "Setting:") || pyStartsWith line (pystr "Characters:") ||
  pyStartsWith line (pystr "Action:") || pyStartsWith line (pystr "Purpose:") ||
  pyStartsWith line (pystr "Tone:")

/-- One iteration of the `for line in lines` loop of `_parse_scenes`. -/
def stepScene (st : SceneState) (raw : PyStr) : SceneState :=
  let line := pyStrip raw
  match sceneBranch line with
  | some .number =>
    { scenes := st.scenes ++ (if st.current.isEmpty then [] else [st.current]),
      current := { number := some (pyStrip (pyDel (pystr "SCENE") line)) },
      currentField := some SceneField.number }
  | some f =>
    { st with current := st.current.set f (pyStrip (pyDel (sceneLabel f) line)),
              currentField := some f }
  | none =>
    match st.currentField with
    | some cf =>
      if !line.isEmpty && !sceneBoundary line then
        match st.current.get cf with
        | some v => { st with current := st.current.set cf (v ++ pystr " " ++ line) }
        | none => st
      else st
    | none => st

/-- `_parse_scenes` on an already-split list of lines. -/
def parseScenesL (lines : List PyStr) : List SceneRec :=
  let st := lines.foldl stepScene {}
  st.scenes ++ (if st.current.isEmpty then [] else [st.current])

/-- `OutlinerModule._parse_scenes`. -/
def parse_scenes (text : PyStr) : List SceneRec :=
  parseScenesL (pyLines text)

/-! ### `_parse_setting` (src/novel_agent/modules/setting_generator.py) -/

/-- The single setting record: the Python dict with its ten canonical keys. -/
structure SettingRec where
  location : Option PyStr := none
  time_period : Option PyStr := none
  description : Option PyStr := none
  culture : Option PyStr := none
  technology : Option PyStr := none
  politics : Option PyStr := none
  economy : Option PyStr := none
  important_locations : Option PyStr := none
  atmosphere : Option PyStr := none
  thematic_connection : Option PyStr := none
deriving DecidableEq, Repr

/-- The ten field keys of the setting record. -/
inductive SettingField
  | location | time_period | description | culture | technology
  | politics | economy | important_locations | atmosphere | thematic_connection
deriving DecidableEq, Repr

/-- Field lookup on the setting record. -/
def SettingRec.get (r : SettingRec) : SettingField → Option PyStr
  | .location => r.location
  | .time_period => r.time_period
  | .description => r.description
  | .culture => r.culture
  | .technology => r.technology
  | .politics => r.politics
  | .economy => r.economy
  | .important_locations => r.important_locations
  | .atmosphere => r.atmosphere
  | .thematic_connection => r.thematic_connection

/-- Field assignment on the setting record. -/
def SettingRec.set (r : SettingRec) : SettingField → PyStr → SettingRec
  | .location, v => { r with location := some v }
  | .time_period, v => { r with time_period := some v }
  | .description, v => { r with description := some v }
  | .culture, v => { r with culture := some v }
  | .technology, v => { r with technology := some v }
  | .politics, v => { r with politics := some v }
  | .economy, v => { r with economy := some v }
  | .important_locations, v => { r with important_locations := some v }
  | .atmosphere, v => { r with atmosphere := some v }
  | .thematic_connection, v => { r with thematic_connection := some v }

/-- Which branch of the `_parse_setting` label chain fires on a (stripped)
line. -/
def settingBranch (line : PyStr) : Option SettingField :=
  if pyStartsWith line (pystr "Location:") then some .location
  else if pyStartsWith line (pystr "Time Period:") then some .time_period
  else if pyStartsWith line (pystr "Physical:") then some .description
  else if pyStartsWith line (pystr "Culture:") then some .culture
  else if pyStartsWith line (pystr "Technology:") then some .technology
  else if pyStartsWith line (pystr "Politics:") then some .politics
  else if pyStartsWith line (pystr "Economy:") then some .economy
  else if pyStartsWith line (pystr "Key Locations:") then some .important_locations
  else if pyStartsWith line (pystr "Atmosphere:") then some .atmosphere
  else if pyStartsWith line (pystr "Thematic Connection:") then some .thematic_connection
  else none

/-- The label string each setting field strips from its line. -/
def settingLabel : SettingField → PyStr
  | .location => pystr "Location:"
  | .time_period => pystr "Time Period:"
  | .description => pystr "Physical:"
  | .culture => pystr "Culture:"
  | .technology => pystr "Technology:"
  | .politics => pystr "Politics:"
  | .economy => pystr "Economy:"
  | .important_locations => pystr "Key Locations:"
  | .atmosphere => pystr "Atmosphere:"
  | .thematic_connection => pystr "Thematic Connection:"

/-- The prefixes the continuation branch of `_parse_setting` refuses to
append. -/
def settingBoundary (line : PyStr) : Bool :=
  pyStartsWith line (pystr "---") || pyStartsWith line (pystr "Location:") ||
  pyStartsWith line (pystr "Time") || pyStartsWith line (pystr "Physical:") ||
  pyStartsWith line (pystr "Culture:") || pyStartsWith line (pystr "Technology:") ||
  pyStartsWith line (pystr "Politics:") || pyStartsWith line (pystr "Economy:") ||
  pyStartsWith line (pystr "Key") || pyStartsWith line (pystr "Atmosphere:") ||
  pyStartsWith line (pystr "Thematic")

/-- Loop state of `_parse_setting`: the single dict and `current_field`. -/
structure SettingState where
  setting : SettingRec := {}
  currentField : Option SettingField := none
deriving DecidableEq, Repr

/-- One iteration of the `for line in lines` loop of `_parse_setting`. -/
def stepSetting (st : SettingState) (raw : PyStr) : SettingState :=
  let line := pyStrip raw
  match settingBranch line with
  | some f =>
    { setting := st.setting.set f (pyStrip (pyDel (settingLabel f) line)),
      currentField := some f }
  | none =>
    match st.currentField with
    | some cf =>
      if !line.isEmpty && !settingBoundary line then
        match st.setting.get cf with
        | some v => { st with setting := st.setting.set cf (v ++ pystr " " ++ line) }
        | none => st
      else st
    | none => st

/-- `SettingGeneratorModule._parse_setting`. -/
def parse_setting (text : PyStr) : SettingRec :=
  ((pyLines text).foldl stepSetting {}).setting

/-! ### `_parse_edit_response` (src/novel_agent/modules/editor.py) -/

/-- The result dict of `_parse_edit_response`. -/
structure EditResult where
  original : PyStr
  issues : List PyStr := []
  suggestions : List PyStr := []
  revised : PyStr := []
deriving DecidableEq, Repr

/-- Loop state of `_parse_edit_response`: `current_section` is the Python
string key (kept as a string so that the key lookup into `sections` stays a
genuine dict lookup), and the three lists of the `sections` dict. -/
structure EditState where
  currentSection : Option PyStr := none
  issues : List PyStr := []
  suggestions : List PyStr := []
  revised : List PyStr := []
deriving DecidableEq, Repr

/-- `sections[k].append(v)`; an unknown key leaves the state unchanged here
(the `Except` embedding `stepEditE` raises `KeyError` there instead, and the
equivalence theorem shows that case is unreachable). -/
def editAppend (st : EditState) (k : PyStr) (v : PyStr) : EditState :=
  if k = pystr "issues" then { st with issues := st.issues ++ [v] }
  else if k = pystr "suggestions" then { st with suggestions := st.suggestions ++ [v] }
  else if k = pystr "revised" then { st with revised := st.revised ++ [v] }
  else st

/-- One iteration of the `for line in response.split('\n')` loop of
`_parse_edit_response`. -/
def stepEdit (st : EditState) (raw : PyStr) : EditState :=
  let lineUpper := pyUpper (pyStrip raw)
  if pyStartsWith lineUpper (pystr "ISSUES:") then
    { st with currentSection := some (pystr "issues") }
  else if pyStartsWith lineUpper (pystr "SUGGESTIONS:") then
    { st with currentSection := some (pystr "suggestions") }
  else if pyStartsWith lineUpper (pystr "REVISED VERSION:") then
    { st with currentSection := some (pystr "revised") }
  else
    match st.currentSection with
    | some k =>
      if !(pyStrip raw).isEmpty then editAppend st k (pyStrip raw) else st
    | none => st

/-- `EditorModule._parse_edit_response`. -/
def parse_edit_response (response original : PyStr) : EditResult :=
  let st := (pyLines response).foldl stepEdit {}
  { original := original, issues := st.issues, suggestions := st.suggestions,
    revised := pyJoinNl st.revised }

/-! ### `_parse_score_response` (src/novel_agent/output/scorer.py) -/

/-- Loop state of `_parse_score_response`; the score is modelled as a
rational (`5.0` is the Python default). -/
structure ScoreState where
  score : Rat := 5
  feedback : PyStr := []
deriving DecidableEq, Repr

/-- One iteration of the `for line in response.split('\n')` loop of
`_parse_score_response`.  `pf` models Python `float(...)`: `none` is a
raised `ValueError`, which the source catches and ignores, leaving the
score unchanged; a parsed value is clamped with `max(0, min(10, score))`.
(`float` is kept as a parameter: every theorem below holds for any
behaviour of float parsing.) -/
def stepScore (pf : PyStr → Option Rat) (st : ScoreState) (raw : PyStr) : ScoreState :=
  let ls := pyStrip raw
  if pyStartsWith ls (pystr "SCORE:") then
    match pf (pyStrip (pyDel (pystr "SCORE:") ls)) with
    | some x => { st with score := max 0 (min 10 x) }
    | none => st
  else if pyStartsWith ls (pystr "FEEDBACK:") then
    { st with feedback := pyStrip (pyDel (pystr "FEEDBACK:") ls) }
  else if !st.feedback.isEmpty && !pyStartsWith ls (pystr "SCORE:") then
    { st with feedback := st.feedback ++ pystr " " ++ ls }
  else st

/-- `NovelScorer._parse_score_response`. -/
def parse_score_response (pf : PyStr → Option Rat) (text : PyStr) : Rat × PyStr :=
  let st := (pyLines text).foldl (stepScore pf) {}
  (st.score, st.feedback)

/-! ### Exception-aware embeddings

The Python operations inside the parser loops that can raise are the
`dict[key]` reads behind the `+=` continuation updates, the `int(...)`
conversion in `_parse_chapter_outline`, and the `sections[current_section]`
lookup in `_parse_edit_response`.  The `*E` step functions below repeat the
step functions verbatim but perform those operations in `Except PyErr`;
the `float(...)` call of `_parse_score_response` is inside a `try/except`
and is already modelled by the `pf` parameter of `stepScore`. -/

/-- The Python exceptions the parser family could in principle raise. -/
inductive PyErr
  | keyError | valueError
deriving DecidableEq, Repr

/-- A `d[k]` read of a key that `Option`-models presence: raises `KeyError`
when the key is absent. -/
def dictGet {α : Type} (o : Option α) : Except PyErr α :=
  match o with
  | some v => .ok v
  | none => .error .keyError

/-- Python `int(s)`: raises `ValueError` when unparsable. -/
def pyIntE (s : PyStr) : Except PyErr Int :=
  match pyInt s with
  | some n => .ok n
  | none => .error .valueError

/-- Fold a fallible step function over the lines, stopping at the first
exception — the `for` loop of a parser whose body may raise. -/
def foldME {σ : Type} (step : σ → PyStr → Except PyErr σ) : σ → List PyStr → Except PyErr σ
  | st, [] => .ok st
  | st, l :: ls =>
    match step st l with
    | .ok st2 => foldME step st2 ls
    | .error e => .error e

/-- `stepPlot` with the `current_idea['premise']` read made fallible. -/
def stepPlotE (st : PlotState) (raw : PyStr) : Except PyErr PlotState :=
  let line := pyStrip raw
  match plotBranch line with
  | some .title =>
    .ok { ideas := st.ideas ++ (if st.current.isEmpty then [] else [st.current]),
          current := { title := some (plotFieldVal .title line) } }
  | some .premise => .ok { st with current := { st.current with premise := some (plotFieldVal .premise line) } }
  | some .conflict => .ok { st with current := { st.current with conflict := some (plotFieldVal .conflict line) } }
  | some .hook => .ok { st with current := { st.current with hook := some (plotFieldVal .hook line) } }
  | none =>
    if plotContGuard st.current line then
      match dictGet st.current.premise with
      | .ok p => .ok { st with current := { st.current with premise := some (p ++ pystr " " ++ line) } }
      | .error e => .error e
    else .ok st

/-- `_parse_plot_ideas` with fallible dict reads. -/
def parse_plot_ideasE (text : PyStr) : Except PyErr (List PlotIdea) :=
  match foldME stepPlotE {} (pyLines text) with
  | .ok st => .ok (st.ideas ++ (if st.current.isEmpty then [] else [st.current]))
  | .error e => .error e

/-- `stepChar` with the `current_char[current_field]` read made fallible
(the source guards it with `if current_field in current_char`). -/
def stepCharE (st : CharState) (raw : PyStr) : Except PyErr CharState :=
  let line := pyStrip raw
  match findCharLabel line with
  | some (f, lab) =>
    let st1 :=
      if !st.current.isEmpty && f = CharField.name then
        { st with chars := st.chars ++ [st.current], current := {} }
      else st
    .ok { st1 with current := st1.current.set f (pyStrip (pyDel lab line)),
                   currentField := some f }
  | none =>
    match st.currentField with
    | some cf =>
      if !line.isEmpty && !charBoundary line then
        if (st.current.get cf).isSome then
          match dictGet (st.current.get cf) with
          | .ok v => .ok { st with current := st.current.set cf (v ++ pystr " " ++ line) }
          | .error e => .error e
        else .ok st
      else .ok st
    | none => .ok st

/-- `_parse_characters` with fallible dict reads. -/
def parse_charactersE (text : PyStr) : Except PyErr (List CharRec) :=
  match foldME stepCharE {} (pyLines text) with
  | .ok st => .ok (st.chars ++ (if st.current.isEmpty then [] else [st.current]))
  | .error e => .error e

/-- `try: number = int(s)` / `except ValueError: number = d`, with the
`int(...)` call fallible. -/
def tryIntDefault (s : PyStr) (d : Int) : Except PyErr Int :=
  match pyIntE s with
  | .ok n => .ok n
  | .error .valueError => .ok d
  | .error e => .error e

/-- `stepChapter` with `int(...)` and the continuation dict read made
fallible; the `try/except ValueError` of the source is `tryIntDefault`. -/
def stepChapterE (st : ChapState) (raw : PyStr) : Except PyErr ChapState :=
  let line := pyStrip raw
  if pyStartsWith line (pystr "CHAPTER ") && line.contains ':' then
    let chapters := st.chapters ++ (if st.current.isEmpty then [] else [st.current])
    let parts := pySplitOnce ':' line
    let numberPart := pyStrip (pyDel (pystr "CHAPTER") (parts.headD []))
    let title := if parts.length > 1 then pyStrip (parts.getD 1 []) else pystr "Untitled"
    match tryIntDefault numberPart ((chapters.length : Int) + 1) with
    | .ok number =>
      .ok { chapters := chapters,
            current := { number := some number, title := some title },
            currentField := some ChapField.title }
    | .error e => .error e
  else
    match chapBranch line with
    | some f =>
      .ok { st with current := st.current.set f (pyStrip (pyDel (chapLabel f) line)),
                    currentField := some f }
    | none =>
      match st.currentField with
      | some cf =>
        if !line.isEmpty && !chapBoundary line then
          if (st.current.get cf).isSome then
            match dictGet (st.current.get cf) with
            | .ok v => .ok { st with current := st.current.set cf (v ++ pystr " " ++ line) }
            | .error e => .error e
          else .ok st
        else .ok st
      | none => .ok st

/-- `_parse_chapter_outline` with fallible operations. -/
def parse_chapter_outlineE (text : PyStr) : Except PyErr (List ChapterRec) :=
  match foldME stepChapterE {} (pyLines text) with
  | .ok st => .ok (st.chapters ++ (if st.current.isEmpty then [] else [st.current]))
  | .error e => .error e

/-- The `sections[k]` dict read of `_parse_edit_response`: raises
`KeyError` on a key other than the three fixed ones. -/
def secGet (st : EditState) (k : PyStr) : Except PyErr (List PyStr) :=
  if k = pystr "issues" then .ok st.issues
  else if k = pystr "suggestions" then .ok st.suggestions
  else if k = pystr "revised" then .ok st.revised
  else .error .keyError

/-- Write back one list of the `sections` dict (the second half of the
in-place `append`); only called on the three fixed keys. -/
def secSet (st : EditState) (k : PyStr) (l : List PyStr) : EditState :=
  if k = pystr "issues" then { st with issues := l }
  else if k = pystr "suggestions" then { st with suggestions := l }
  else if k = pystr "revised" then { st with revised := l }
  else st

/-- `stepEdit` with the `sections[current_section]` read made fallible. -/
def stepEditE (st : EditState) (raw : PyStr) : Except PyErr EditState :=
  let lineUpper := pyUpper (pyStrip raw)
  if pyStartsWith lineUpper (pystr "ISSUES:") then
    .ok { st with currentSection := some (pystr "issues") }
  else if pyStartsWith lineUpper (pystr "SUGGESTIONS:") then
    .ok { st with currentSection := some (pystr "suggestions") }
  else if pyStartsWith lineUpper (pystr "REVISED VERSION:") then
    .ok { st with currentSection := some (pystr "revised") }
  else
    match st.currentSection with
    | some k =>
      if !(pyStrip raw).isEmpty then
        match secGet st k with
        | .ok cur => .ok (secSet st k (cur ++ [pyStrip raw]))
        | .error e => .error e
      else .ok st
    | none => .ok st

/-- `_parse_edit_response` with fallible dict reads. -/
def parse_edit_responseE (response original : PyStr) : Except PyErr EditResult :=
  match foldME stepEditE {} (pyLines response) with
  | .ok st =>
    .ok { original := original, issues := st.issues, suggestions := st.suggestions,
          revised := pyJoinNl st.revised }
  | .error e => .error e

/-- `current_section` only ever holds one of the three keys of `sections`
(or `None`). -/
def EditInv (st : EditState) : Prop :=
  st.currentSection = none ∨ st.currentSection = some (pystr "issues") ∨
  st.currentSection = some (pystr "suggestions") ∨ st.currentSection = some (pystr "revised")

/-- `stepScene` with the `current_scene[current_field]` read made fallible
(the source guards it with `if current_field in current_scene`). -/
def stepSceneE (st : SceneState) (raw : PyStr) : Except PyErr SceneState :=
  let line := pyStrip raw
  match sceneBranch line with
  | some .number =>
    .ok { scenes := st.scenes ++ (if st.current.isEmpty then [] else [st.current]),
          current := { number := some (pyStrip (pyDel (pystr "SCENE") line)) },
          currentField := some SceneField.number }
  | some f =>
    .ok { st with current := st.current.set f (pyStrip (pyDel (sceneLabel f) line)),
                  currentField := some f }
  | none =>
    match st.currentField with
    | some cf =>
      if !line.isEmpty && !sceneBoundary line then
        if (st.current.get cf).isSome then
          match dictGet (st.current.get cf) with
          | .ok v => .ok { st with current := st.current.set cf (v ++ pystr " " ++ line) }
          | .error e => .error e
        else .ok st
      else .ok st
    | none => .ok st

/-- `_parse_scenes` with fallible dict reads. -/
def parse_scenesE (text : PyStr) : Except PyErr (List SceneRec) :=
  match foldME stepSceneE {} (pyLines text) with
  | .ok st => .ok (st.scenes ++ (if st.current.isEmpty then [] else [st.current]))
  | .error e => .error e

/-- `stepSetting` with the `setting[current_field]` read made fallible
(the source guards it with `if current_field in setting`). -/
def stepSettingE (st : SettingState) (raw : PyStr) : Except PyErr SettingState :=
  let line := pyStrip raw
  match settingBranch line with
  | some f =>
    .ok { setting := st.setting.set f (pyStrip (pyDel (settingLabel f) line)),
          currentField := some f }
  | none =>
    match st.currentField with
    | some cf =>
      if !line.isEmpty && !settingBoundary line then
        if (st.setting.get cf).isSome then
          match dictGet (st.setting.get cf) with
          | .ok v => .ok { st with setting := st.setting.set cf (v ++ pystr " " ++ line) }
          | .error e => .error e
        else .ok st
      else .ok st
    | none => .ok st

/-- `_parse_setting` with fallible dict reads. -/
def parse_settingE (text : PyStr) : Except PyErr SettingRec :=
  match foldME stepSettingE {} (pyLines text) with
  | .ok st => .ok st.setting
  | .error e => .error e

/-! ### Record blocks

A `PlotBlock` describes one well-formed record of `_parse_plot_ideas`
input: a record-start (`Title:`) line followed by field-label lines, each
tagged with the field its label names.  `renderBlocks` lays a list of
blocks out as input lines; `mkPlotRec` is the record a block describes,
with a later occurrence of a field overwriting an earlier one. -/

/-- One record block of `_parse_plot_ideas` input. -/
structure PlotBlock where
  titleLine : PyStr
  fields : List (PlotField × PyStr)

/-- The input lines of one block: the `Title:` line, then the field lines. -/
def renderPlotBlock (b : PlotBlock) : List PyStr :=
  b.titleLine :: b.fields.map Prod.snd

/-- The input lines of a list of blocks. -/
def renderBlocks : List PlotBlock → List PyStr
  | [] => []
  | b :: bs => renderPlotBlock b ++ renderBlocks bs

/-- The record a block describes: title from the `Title:` line, each field
from the last of its lines in the block. -/
def mkPlotRec (b : PlotBlock) : PlotIdea :=
  b.fields.foldl (fun r fl => r.set fl.1 (plotFieldVal fl.1 (pyStrip fl.2)))
    { title := some (plotFieldVal .title (pyStrip b.titleLine)) }

/-- Well-formedness of a block: its title line fires the `Title:` branch
and each field line fires exactly the branch of its tag (which is not the
record-start field). -/
abbrev PlotBlockWF (b : PlotBlock) : Prop :=
  plotBranch (pyStrip b.titleLine) = some .title ∧
  ∀ fl ∈ b.fields, plotBranch (pyStrip fl.2) = some fl.1 ∧ fl.1 ≠ PlotField.title

/-- Concrete block list used to witness the multi-record theorem. -/
def demoBlocks : List PlotBlock :=
  [⟨pystr "Title: a", [(PlotField.hook, pystr "Hook: h")]⟩,
   ⟨pystr "Title: b", [(PlotField.premise, pystr "Premise: p"),
                       (PlotField.premise, pystr "Premise: q")]⟩]

/-! ## Theorems -/

example : parse_plot_ideas (pystr "") = [] := by decide

example :
    parse_plot_ideas (pystr "Title: T\nPremise: first part\nsecond part") =
      [{ title := some (pystr "T"), premise := some (pystr "first part") }] := by
  decide

example : parse_characters (pystr "") = [] := by decide

example :
    parse_characters (pystr "Name: Bob\nBackground: grew up\nin the hills") =
      [{ name := some (pystr "Bob"), background := some (pystr "grew up in the hills") }] := by
  decide

example :
    parse_characters (pystr "姓名: Bob\nAge: 3") =
      [{ name := some (pystr "Bob"), age := some (pystr "3") }] := by
  decide

example : parse_chapter_outline (pystr "") = [] := by decide

example :
    parse_chapter_outline (pystr "CHAPTER 2: Dawn\nPOV: Mara\nmore pov") =
      [{ number := some 2, title := some (pystr "Dawn"),
         pov := some (pystr "Mara more pov") }] := by
  decide

example :
    parse_chapter_outline (pystr "CHAPTER x: Dawn") =
      [{ number := some 1, title := some (pystr "Dawn") }] := by
  decide

example : parse_scenes (pystr "") = [] := by decide

example :
    parse_scenes (pystr "SCENE 1\nTone: dark\n---\nSCENE 2") =
      [{ number := some (pystr "1"), tone := some (pystr "dark") },
       { number := some (pystr "2") }] := by
  decide

example : parse_setting (pystr "") = {} := by decide

example :
    parse_setting (pystr "Location: the coast\nof Maine") =
      { location := some (pystr "the coast of Maine") } := by
  decide

example :
    parse_edit_response (pystr "") (pystr "orig") =
      { original := pystr "orig" } := by
  decide

example :
    parse_edit_response (pystr "Issues:\n- wordy\nRevised Version:\na\nb") (pystr "o") =
      { original := pystr "o", issues := [pystr "- wordy"],
        revised := pystr "a\nb" } := by
  decide

example :
    parse_score_response (fun _ => none) (pystr "SCORE: banana\nFEEDBACK: ok\nmore") =
      (5, pystr "ok more") := by
  decide

example :
    parse_score_response (fun s => if s = pystr "42" then some 42 else none)
        (pystr "SCORE: 42") =
      (10, []) := by
  decide

/-- If every step succeeds (given an invariant), the fallible fold is the
pure fold. -/
theorem foldME_ok_of_inv {σ : Type} (Inv : σ → Prop)
    (stepE : σ → PyStr → Except PyErr σ) (step : σ → PyStr → σ)
    (hstep : ∀ st l, Inv st → stepE st l = .ok (step st l) ∧ Inv (step st l)) :
    ∀ (ls : List PyStr) (st : σ), Inv st →
      foldME stepE st ls = .ok (ls.foldl step st) := by
  intro ls
  induction ls with
  | nil => intro st _; rfl
  | cons l ls ih =>
    intro st h
    obtain ⟨he, hi⟩ := hstep st l h
    simp only [foldME, he, List.foldl]
    exact ih _ hi

theorem stepPlotE_ok (st : PlotState) (raw : PyStr) :
    stepPlotE st raw = .ok (stepPlot st raw) := by
  simp only [stepPlotE, stepPlot]
  cases h : plotBranch (pyStrip raw) with
  | none =>
    by_cases hg : plotContGuard st.current (pyStrip raw)
    · cases hp : st.current.premise with
      | none => simp [plotContGuard, hp] at hg
      | some p => simp [hg, hp, dictGet]
    · simp [hg]
  | some f => cases f <;> simp

theorem stepCharE_ok (st : CharState) (raw : PyStr) :
    stepCharE st raw = .ok (stepChar st raw) := by
  simp only [stepCharE, stepChar]
  cases h : findCharLabel (pyStrip raw) with
  | some fl => rfl
  | none =>
    cases hcf : st.currentField with
    | none => rfl
    | some cf =>
      by_cases hg : (!(pyStrip raw).isEmpty && !charBoundary (pyStrip raw)) = true
      · cases hv : st.current.get cf with
        | none => simp [hg, hv]
        | some v => simp [hg, hv, dictGet]
      · simp [hg]

theorem tryIntDefault_ok (s : PyStr) (d : Int) :
    tryIntDefault s d = .ok ((pyInt s).getD d) := by
  simp only [tryIntDefault, pyIntE]
  cases pyInt s <;> rfl

theorem stepChapterE_ok (st : ChapState) (raw : PyStr) :
    stepChapterE st raw = .ok (stepChapter st raw) := by
  simp only [stepChapterE, stepChapter, tryIntDefault_ok]
  by_cases hc : (pyStartsWith (pyStrip raw) (pystr "CHAPTER ") && List.contains (pyStrip raw) ':') = true
  · rw [if_pos hc, if_pos hc]
  · rw [if_neg hc, if_neg hc]
    cases h : chapBranch (pyStrip raw) with
    | some f => rfl
    | none =>
      cases hcf : st.currentField with
      | none => rfl
      | some cf =>
        by_cases hg : (!(pyStrip raw).isEmpty && !chapBoundary (pyStrip raw)) = true
        · cases hv : st.current.get cf with
          | none => simp [hg, hv]
          | some v => simp [hg, hv, dictGet]
        · simp [hg]

theorem stepEditE_ok (st : EditState) (raw : PyStr) (h : EditInv st) :
    stepEditE st raw = .ok (stepEdit st raw) ∧ EditInv (stepEdit st raw) := by
  simp only [stepEditE, stepEdit, EditInv]
  by_cases h1 : pyStartsWith (pyUpper (pyStrip raw)) (pystr "ISSUES:") = true
  · simp [h1]
  · rw [if_neg h1, if_neg h1]
    by_cases h2 : pyStartsWith (pyUpper (pyStrip raw)) (pystr "SUGGESTIONS:") = true
    · simp [h2]
    · rw [if_neg h2, if_neg h2]
      by_cases h3 : pyStartsWith (pyUpper (pyStrip raw)) (pystr "REVISED VERSION:") = true
      · simp [h3]
      · rw [if_neg h3, if_neg h3]
        rcases h with h | h | h | h <;> rw [h] <;>
          by_cases h4 : (!(pyStrip raw).isEmpty) = true <;>
            simp_all [secGet, secSet, editAppend, EditInv, pystr]

/-- `stepPlotE` both succeeds and needs no invariant. -/
theorem foldPlotE_ok (ls : List PyStr) :
    foldME stepPlotE {} ls = .ok (ls.foldl stepPlot {}) :=
  foldME_ok_of_inv (fun _ => True) stepPlotE stepPlot
    (fun st l _ => ⟨stepPlotE_ok st l, trivial⟩) ls {} trivial

theorem foldCharE_ok (ls : List PyStr) :
    foldME stepCharE {} ls = .ok (ls.foldl stepChar {}) :=
  foldME_ok_of_inv (fun _ => True) stepCharE stepChar
    (fun st l _ => ⟨stepCharE_ok st l, trivial⟩) ls {} trivial

theorem foldChapterE_ok (ls : List PyStr) :
    foldME stepChapterE {} ls = .ok (ls.foldl stepChapter {}) :=
  foldME_ok_of_inv (fun _ => True) stepChapterE stepChapter
    (fun st l _ => ⟨stepChapterE_ok st l, trivial⟩) ls {} trivial

theorem stepSceneE_ok (st : SceneState) (raw : PyStr) :
    stepSceneE st raw = .ok (stepScene st raw) := by
  simp only [stepSceneE, stepScene]
  cases h : sceneBranch (pyStrip raw) with
  | some f => cases f <;> rfl
  | none =>
    cases hcf : st.currentField with
    | none => rfl
    | some cf =>
      by_cases hg : (!(pyStrip raw).isEmpty && !sceneBoundary (pyStrip raw)) = true
      · cases hv : st.current.get cf with
        | none => simp [hg, hv]
        | some v => simp [hg, hv, dictGet]
      · simp [hg]

theorem stepSettingE_ok (st : SettingState) (raw : PyStr) :
    stepSettingE st raw = .ok (stepSetting st raw) := by
  simp only [stepSettingE, stepSetting]
  cases h : settingBranch (pyStrip raw) with
  | some f => rfl
  | none =>
    cases hcf : st.currentField with
    | none => rfl
    | some cf =>
      by_cases hg : (!(pyStrip raw).isEmpty && !settingBoundary (pyStrip raw)) = true
      · cases hv : st.setting.get cf with
        | none => simp [hg, hv]
        | some v => simp [hg, hv, dictGet]
      · simp [hg]

theorem foldSceneE_ok (ls : List PyStr) :
    foldME stepSceneE {} ls = .ok (ls.foldl stepScene {}) :=
  foldME_ok_of_inv (fun _ => True) stepSceneE stepScene
    (fun st l _ => ⟨stepSceneE_ok st l, trivial⟩) ls {} trivial

theorem foldSettingE_ok (ls : List PyStr) :
    foldME stepSettingE {} ls = .ok (ls.foldl stepSetting {}) :=
  foldME_ok_of_inv (fun _ => True) stepSettingE stepSetting
    (fun st l _ => ⟨stepSettingE_ok st l, trivial⟩) ls {} trivial

theorem foldEditE_ok (ls : List PyStr) :
    foldME stepEditE {} ls = .ok (ls.foldl stepEdit {}) :=
  foldME_ok_of_inv EditInv stepEditE stepEdit
    (fun st l h => stepEditE_ok st l h) ls {} (Or.inl rfl)

/-! ### Claim theorems -/

/-- C2.  Never-throws / totality: for every input string, each parser of
the family returns normally — the exception-aware embedding (in which the
`dict[key]` reads behind `+=`, `int(...)`, and the
`sections[current_section]` lookup can raise) returns `Except.ok` of
exactly the pure parser's result, for all inputs. -/
theorem parse_family_never_raises (text original : PyStr) :
    parse_plot_ideasE text = .ok (parse_plot_ideas text) ∧
    parse_charactersE text = .ok (parse_characters text) ∧
    parse_chapter_outlineE text = .ok (parse_chapter_outline text) ∧
    parse_edit_responseE text original = .ok (parse_edit_response text original) ∧
    parse_scenesE text = .ok (parse_scenes text) ∧
    parse_settingE text = .ok (parse_setting text) := by
  refine ⟨?_, ?_, ?_, ?_, ?_, ?_⟩
  · simp [parse_plot_ideasE, foldPlotE_ok, parse_plot_ideas, parsePlotIdeasL, finishPlot]
  · simp [parse_charactersE, foldCharE_ok, parse_characters, parseCharsL]
  · simp [parse_chapter_outlineE, foldChapterE_ok, parse_chapter_outline, parseChaptersL]
  · simp [parse_edit_responseE, foldEditE_ok, parse_edit_response]
  · simp [parse_scenesE, foldSceneE_ok, parse_scenes, parseScenesL]
  · simp [parse_settingE, foldSettingE_ok, parse_setting]

/-- C4.  Single-record completeness, at the spec's concrete input: the four
labelled lines parse to exactly one record carrying all four fields. -/
theorem single_record_complete :
    parse_plot_ideas (pystr "Title: Shadow of the Phoenix\nPremise: A young mage discovers a hidden prophecy.\nConflict: An ancient order seeks to erase her lineage.\nHook: She is the last of a forgotten bloodline.") =
      [{ title := some (pystr "Shadow of the Phoenix"),
         premise := some (pystr "A young mage discovers a hidden prophecy."),
         conflict := some (pystr "An ancient order seeks to erase her lineage."),
         hook := some (pystr "She is the last of a forgotten bloodline.") }] := by
  decide

/-- C8.  Empty-input law: on the empty string every parser of the family
returns its empty result (empty list, empty mapping, default score pair)
without raising. -/
theorem empty_input_empty_result :
    parse_plot_ideas (pystr "") = [] ∧
    parse_characters (pystr "") = [] ∧
    parse_chapter_outline (pystr "") = [] ∧
    parse_scenes (pystr "") = [] ∧
    parse_setting (pystr "") = {} ∧
    parse_edit_response (pystr "") (pystr "the original") = { original := pystr "the original" } ∧
    (∀ pf, parse_score_response pf (pystr "") = (5, [])) :=
  ⟨by decide, by decide, by decide, by decide, by decide, by decide, fun _ => rfl⟩

/-- C1.  The continuation law fails in `_parse_plot_ideas`: its guard tests
`line.startswith(('Title:', 'Conflict:', 'Hook:', 'IDEA', '---', ''))`, and
every string starts with `''`, so the branch annotated
`# Continue multi-line premise` is unreachable — an unlabelled second
premise line is silently dropped instead of being space-joined.  The same
law does hold in `_parse_characters`, whose continuation guard is written
without the `''`: the second conjunct shows the two-line value
space-joined there. -/
theorem premise_continuation_line_dropped :
    parse_plot_ideas (pystr "Title: T\nPremise: first part\nsecond part") =
      [{ title := some (pystr "T"), premise := some (pystr "first part") }] ∧
    parse_characters (pystr "Name: N\nBackground: grew up\nin the hills") =
      [{ name := some (pystr "N"), background := some (pystr "grew up in the hills") }] :=
  ⟨by decide, by decide⟩

/-- Each loop iteration of `_parse_score_response` either leaves the score
alone or stores a clamped value. -/
theorem stepScore_score_cases (pf : PyStr → Option Rat) (st : ScoreState) (l : PyStr) :
    (stepScore pf st l).score = st.score ∨
      ∃ x, (stepScore pf st l).score = max 0 (min 10 x) := by
  simp only [stepScore]
  by_cases h1 : pyStartsWith (pyStrip l) (pystr "SCORE:") = true
  · rw [if_pos h1]
    cases pf (pyStrip (pyDel (pystr "SCORE:") (pyStrip l))) with
    | none => exact Or.inl rfl
    | some x => exact Or.inr ⟨x, rfl⟩
  · rw [if_neg h1]
    by_cases h2 : pyStartsWith (pyStrip l) (pystr "FEEDBACK:") = true
    · rw [if_pos h2]; exact Or.inl rfl
    · rw [if_neg h2]
      by_cases h3 : (!st.feedback.isEmpty && !pyStartsWith (pyStrip l) (pystr "SCORE:")) = true
      · rw [if_pos h3]; exact Or.inl rfl
      · rw [if_neg h3]; exact Or.inl rfl

/-- The score stays within `[0, 10]` across the whole loop. -/
theorem foldScore_range (pf : PyStr → Option Rat) (ls : List PyStr) :
    ∀ st : ScoreState, 0 ≤ st.score → st.score ≤ 10 →
      0 ≤ (ls.foldl (stepScore pf) st).score ∧ (ls.foldl (stepScore pf) st).score ≤ 10 := by
  induction ls with
  | nil => intro st h0 h10; exact ⟨h0, h10⟩
  | cons l ls ih =>
    intro st h0 h10
    rw [List.foldl_cons]
    rcases stepScore_score_cases pf st l with h | ⟨x, h⟩
    · exact ih _ (h ▸ h0) (h ▸ h10)
    · refine ih _ (h ▸ le_max_left 0 _) (h ▸ max_le (by norm_num) (min_le_left 10 x))

/-- If every `SCORE:` line's remainder fails to parse as a float, the score
is never written. -/
theorem foldScore_default (pf : PyStr → Option Rat) (ls : List PyStr) :
    ∀ st : ScoreState,
      (∀ l ∈ ls, pyStartsWith (pyStrip l) (pystr "SCORE:") = true →
        pf (pyStrip (pyDel (pystr "SCORE:") (pyStrip l))) = none) →
      (ls.foldl (stepScore pf) st).score = st.score := by
  induction ls with
  | nil => intro st _; rfl
  | cons l ls ih =>
    intro st h
    rw [List.foldl_cons]
    have hstep : (stepScore pf st l).score = st.score := by
      simp only [stepScore]
      by_cases h1 : pyStartsWith (pyStrip l) (pystr "SCORE:") = true
      · rw [if_pos h1, h l (List.mem_cons_self l ls) h1]
      · rw [if_neg h1]
        by_cases h2 : pyStartsWith (pyStrip l) (pystr "FEEDBACK:") = true
        · rw [if_pos h2]
        · rw [if_neg h2]
          by_cases h3 : (!st.feedback.isEmpty && !pyStartsWith (pyStrip l) (pystr "SCORE:")) = true
          · rw [if_pos h3]
          · rw [if_neg h3]
    rw [ih _ fun l' hl' => h l' (List.mem_cons_of_mem l hl'), hstep]

/-- If no line starts with `FEEDBACK:`, the feedback stays empty: the
continuation branch requires a non-empty feedback to fire. -/
theorem foldScore_feedback (pf : PyStr → Option Rat) (ls : List PyStr) :
    ∀ st : ScoreState, st.feedback = [] →
      (∀ l ∈ ls, pyStartsWith (pyStrip l) (pystr "FEEDBACK:") = false) →
      (ls.foldl (stepScore pf) st).feedback = [] := by
  induction ls with
  | nil => intro st hf _; exact hf
  | cons l ls ih =>
    intro st hf h
    rw [List.foldl_cons]
    refine ih _ ?_ fun l' hl' => h l' (List.mem_cons_of_mem l hl')
    simp only [stepScore]
    by_cases h1 : pyStartsWith (pyStrip l) (pystr "SCORE:") = true
    · rw [if_pos h1]
      cases pf (pyStrip (pyDel (pystr "SCORE:") (pyStrip l))) <;> exact hf
    · rw [if_neg h1, if_neg (by rw [h l (List.mem_cons_self l ls)]; exact Bool.false_ne_true)]
      rw [if_neg (by rw [hf]; simp)]
      exact hf

/-- C10.  `_parse_score_response`: for every float-parsing behaviour `pf`
and every input, the returned score lies in `[0, 10]`; if no `SCORE:` line
carries a parsable number the score is the default `5.0`; and with no
`FEEDBACK:` line the feedback is the empty string. -/
theorem score_range_and_defaults (pf : PyStr → Option Rat) (text : PyStr) :
    0 ≤ (parse_score_response pf text).1 ∧
    (parse_score_response pf text).1 ≤ 10 ∧
    ((∀ l ∈ pyLines text, pyStartsWith (pyStrip l) (pystr "SCORE:") = true →
        pf (pyStrip (pyDel (pystr "SCORE:") (pyStrip l))) = none) →
      (parse_score_response pf text).1 = 5) ∧
    ((∀ l ∈ pyLines text, pyStartsWith (pyStrip l) (pystr "FEEDBACK:") = false) →
      (parse_score_response pf text).2 = []) := by
  refine ⟨?_, ?_, ?_, ?_⟩
  · exact (foldScore_range pf (pyLines text) {} (by norm_num) (by norm_num)).1
  · exact (foldScore_range pf (pyLines text) {} (by norm_num) (by norm_num)).2
  · intro h; exact foldScore_default pf (pyLines text) {} h
  · intro h; exact foldScore_feedback pf (pyLines text) {} rfl h

/-- Witness for C10 at a concrete input: an unparsable `SCORE:` line keeps
the default score `5.0` and the feedback stays empty. -/
theorem score_range_and_defaults_witness :
    (parse_score_response (fun _ => none) (pystr "SCORE: banana\nsome text")).1 = 5 ∧
    (parse_score_response (fun _ => none) (pystr "SCORE: banana\nsome text")).2 = [] :=
  ⟨(score_range_and_defaults (fun _ => none) (pystr "SCORE: banana\nsome text")).2.2.1
      (by intro l _ _; rfl),
   (score_range_and_defaults (fun _ => none) (pystr "SCORE: banana\nsome text")).2.2.2
      (by decide)⟩

/-- Setting a field stores exactly that value. -/
theorem plot_get_set_self (r : PlotIdea) (f : PlotField) (v : PyStr) :
    (r.set f v).get f = some v := by
  cases f <;> rfl

/-- Setting a field stores exactly that value. -/
theorem char_get_set_self (r : CharRec) (f : CharField) (v : PyStr) :
    (r.set f v).get f = some v := by
  cases f <;> rfl

/-- After a label line fires branch `f`, the current record holds that
line's value at `f`, whatever the previous state was. -/
theorem stepPlot_get_branch (st : PlotState) (raw : PyStr) (f : PlotField)
    (h : plotBranch (pyStrip raw) = some f) :
    (stepPlot st raw).current.get f = some (plotFieldVal f (pyStrip raw)) := by
  cases f <;> simp [stepPlot, h, PlotIdea.get]

/-- After a label line matches `(f, lab)`, the current record holds that
line's value at `f`, whatever the previous state was. -/
theorem stepChar_get_label (st : CharState) (raw : PyStr) (f : CharField) (lab : PyStr)
    (h : findCharLabel (pyStrip raw) = some (f, lab)) :
    (stepChar st raw).current.get f = some (pyStrip (pyDel lab (pyStrip raw))) := by
  simp only [stepChar, h]
  exact char_get_set_self _ f _

/-- C7.  Last-write-wins within a record: after any prefix of input lines,
processing a field-label line stores exactly that line's value for the
field — the stored value does not depend on any earlier occurrence.
Stated for `_parse_plot_ideas` and `_parse_characters`. -/
theorem last_write_wins :
    (∀ (ls : List PyStr) (raw : PyStr) (f : PlotField),
        plotBranch (pyStrip raw) = some f →
        (List.foldl stepPlot {} (ls ++ [raw])).current.get f =
          some (plotFieldVal f (pyStrip raw))) ∧
    (∀ (ls : List PyStr) (raw : PyStr) (f : CharField) (lab : PyStr),
        findCharLabel (pyStrip raw) = some (f, lab) →
        (List.foldl stepChar {} (ls ++ [raw])).current.get f =
          some (pyStrip (pyDel lab (pyStrip raw)))) := by
  constructor
  · intro ls raw f h
    rw [List.foldl_append, List.foldl_cons, List.foldl_nil]
    exact stepPlot_get_branch _ raw f h
  · intro ls raw f lab h
    rw [List.foldl_append, List.foldl_cons, List.foldl_nil]
    exact stepChar_get_label _ raw f lab h

/-- Witness for C7: a second `Conflict:`/`Motivation:` line overwrites the
first, leaving exactly the later value. -/
theorem last_write_wins_witness :
    (List.foldl stepPlot {} ([pystr "Title: T", pystr "Conflict: old"] ++ [pystr "Conflict: new"])).current.get PlotField.conflict =
        some (plotFieldVal PlotField.conflict (pyStrip (pystr "Conflict: new"))) ∧
    plotFieldVal PlotField.conflict (pyStrip (pystr "Conflict: new")) = pystr "new" ∧
    (List.foldl stepChar {} ([pystr "Name: N", pystr "Motivation: old"] ++ [pystr "Motivation: new"])).current.get CharField.motivation =
        some (pyStrip (pyDel (pystr "Motivation:") (pyStrip (pystr "Motivation: new")))) ∧
    pyStrip (pyDel (pystr "Motivation:") (pyStrip (pystr "Motivation: new"))) = pystr "new" :=
  ⟨last_write_wins.1 _ _ _ (by decide), by decide,
   last_write_wins.2 _ _ _ _ (by decide), by decide⟩

/-- A blank line, or a non-label line starting with one of the character
parser's own boundary markers, leaves the loop state untouched. -/
theorem stepChar_skip (st : CharState) (raw : PyStr)
    (h : pyStrip raw = [] ∨
      (findCharLabel (pyStrip raw) = none ∧ charBoundary (pyStrip raw) = true)) :
    stepChar st raw = st := by
  rcases h with h | ⟨h1, h2⟩
  · have hfl : findCharLabel ([] : PyStr) = none := by decide
    simp only [stepChar, h, hfl]
    cases st.currentField <;> simp
  · simp only [stepChar, h1]
    cases st.currentField <;> simp [h2]

/-- A blank line, or a non-label line starting with one of the scene
parser's own boundary markers, leaves the loop state untouched. -/
theorem stepScene_skip (st : SceneState) (raw : PyStr)
    (h : pyStrip raw = [] ∨
      (sceneBranch (pyStrip raw) = none ∧ sceneBoundary (pyStrip raw) = true)) :
    stepScene st raw = st := by
  rcases h with h | ⟨h1, h2⟩
  · have hb : sceneBranch ([] : PyStr) = none := by decide
    simp only [stepScene, h, hb]
    cases st.currentField <;> simp
  · simp only [stepScene, h1]
    cases st.currentField <;> simp [h2]

/-- C6 (amended).  Delimiter blindness for each parser's own boundary
markers: inserting, anywhere, a blank line or a line that matches no field
label and starts with one of the parser's recognised boundary prefixes
(for `_parse_characters`: `---`, `PROTAGONIST`, `CHARACTER`, `主角`,
`反派`, `配角`; for `_parse_scenes`: `---`, `SCENE` (non-record-start),
`Setting:`, `Characters:`, `Action:`, `Purpose:`, `Tone:`) does not change
the parse result at all. -/
theorem boundary_insertion_invariant :
    (∀ (raw : PyStr),
        (pyStrip raw = [] ∨
          (findCharLabel (pyStrip raw) = none ∧ charBoundary (pyStrip raw) = true)) →
        ∀ (xs ys : List PyStr), parseCharsL (xs ++ raw :: ys) = parseCharsL (xs ++ ys)) ∧
    (∀ (raw : PyStr),
        (pyStrip raw = [] ∨
          (sceneBranch (pyStrip raw) = none ∧ sceneBoundary (pyStrip raw) = true)) →
        ∀ (xs ys : List PyStr), parseScenesL (xs ++ raw :: ys) = parseScenesL (xs ++ ys)) := by
  constructor
  · intro raw h xs ys
    unfold parseCharsL
    rw [List.foldl_append, List.foldl_append, List.foldl_cons, stepChar_skip _ raw h]
  · intro raw h xs ys
    unfold parseScenesL
    rw [List.foldl_append, List.foldl_append, List.foldl_cons, stepScene_skip _ raw h]

/-- Counterexample to C6 as stated: `--` is a line consisting only of `-`
characters, yet inserting it between the field lines of a
`_parse_characters` record changes the parsed `name` (the continuation
branch only skips lines starting with `---`, three dashes). -/
theorem delimiter_blindness_cex :
    parse_characters (pystr "Name: Bob\n--\nAge: 30") ≠
      parse_characters (pystr "Name: Bob\nAge: 30") ∧
    parse_characters (pystr "Name: Bob\n--\nAge: 30") =
      [{ name := some (pystr "Bob --"), age := some (pystr "30") }] :=
  ⟨by decide, by decide⟩

/-- Witness for C6: inserting `---` in a character record and a blank line
in a scene record leaves the results unchanged. -/
theorem boundary_insertion_witness :
    parseCharsL ([pystr "Name: Bob"] ++ pystr "---" :: [pystr "Age: 30"]) =
      parseCharsL ([pystr "Name: Bob"] ++ [pystr "Age: 30"]) ∧
    parseScenesL ([pystr "SCENE 1"] ++ pystr "   " :: [pystr "Tone: dark"]) =
      parseScenesL ([pystr "SCENE 1"] ++ [pystr "Tone: dark"]) :=
  ⟨boundary_insertion_invariant.1 _ (by decide) _ _,
   boundary_insertion_invariant.2 _ (by decide) _ _⟩

/-- A list is a prefix of itself followed by anything. -/
theorem isPrefixOf_append_self (p t : PyStr) : p.isPrefixOf (p ++ t) = true := by
  induction p with
  | nil => cases t <;> rfl
  | cons a as ih => simp [List.isPrefixOf, ih]

/-- Skipping `xs.length` characters of `xs ++ rest` lands at `rest`. -/
theorem pyDelGo_skip (pat : PyStr) (xs rest : PyStr) :
    pyDelGo pat xs.length (xs ++ rest) = pyDelGo pat 0 rest := by
  induction xs with
  | nil => rfl
  | cons x xs ih => simpa [pyDelGo] using ih

/-- Deleting a pattern from a string that starts with it removes that
occurrence first. -/
theorem pyDel_append_self (pat rest : PyStr) (hp : pat ≠ []) :
    pyDel pat (pat ++ rest) = pyDel pat rest := by
  cases pat with
  | nil => exact absurd rfl hp
  | cons c p =>
    show pyDelGo (c :: p) 0 ((c :: p) ++ rest) = pyDelGo (c :: p) 0 rest
    rw [List.cons_append]
    simp only [pyDelGo]
    rw [if_pos]
    · have hl : (c :: p).length - 1 = p.length := by simp
      rw [hl, pyDelGo_skip]
    · simp [List.isPrefixOf, isPrefixOf_append_self]

/-- A pattern that does not occur in a string is not deleted from it. -/
theorem pyDel_not_contains (pat s : PyStr) (h : pyContainsSub s pat = false) :
    pyDel pat s = s := by
  induction s with
  | nil => rfl
  | cons c s ih =>
    rw [pyContainsSub, List.tails_cons, List.any_cons] at h
    have h1 : pat.isPrefixOf (c :: s) = false := by
      cases hx : pat.isPrefixOf (c :: s) <;> simp [hx] at h ⊢
    have h2 : pyContainsSub s pat = false := by
      rw [pyContainsSub]
      cases hx : s.tails.any (fun t => pat.isPrefixOf t) <;> simp [hx] at h ⊢
    show pyDelGo pat 0 (c :: s) = c :: s
    simp only [pyDelGo]
    rw [if_neg (by simp [h1]), show pyDelGo pat 0 s = s from ih h2]

/-- `replace(label, '')` on a line `label ++ rest` in which the label does
not reoccur gives exactly the remainder. -/
theorem pyDel_label (pat rest : PyStr) (hp : pat ≠ [])
    (h : pyContainsSub rest pat = false) : pyDel pat (pat ++ rest) = rest := by
  rw [pyDel_append_self pat rest hp, pyDel_not_contains pat rest h]

/-- C5 (amended).  Label-remainder law, restricted to lines in which the
matched label does not occur again after the prefix: the stored value is
exactly the remainder of the line after the label, trimmed.  (Without the
restriction the law fails: the source uses `line.replace(label, '')`,
which removes every occurrence.)  Stated for `_parse_plot_ideas` and
`_parse_characters`. -/
theorem label_remainder_restored :
    (∀ (st : PlotState) (raw rest : PyStr) (f : PlotField),
        plotBranch (pyStrip raw) = some f →
        pyStrip raw = plotLabel f ++ rest →
        pyContainsSub rest (plotLabel f) = false →
        (stepPlot st raw).current.get f = some (pyStrip rest)) ∧
    (∀ (st : CharState) (raw rest lab : PyStr) (f : CharField),
        findCharLabel (pyStrip raw) = some (f, lab) →
        lab ≠ [] →
        pyStrip raw = lab ++ rest →
        pyContainsSub rest lab = false →
        (stepChar st raw).current.get f = some (pyStrip rest)) := by
  constructor
  · intro st raw rest f hb hline hocc
    rw [stepPlot_get_branch st raw f hb, plotFieldVal, hline,
        pyDel_label _ _ (by cases f <;> decide) hocc]
  · intro st raw rest lab f hf hlab hline hocc
    rw [stepChar_get_label st raw f lab hf, hline, pyDel_label _ _ hlab hocc]

/-- Counterexample to C5 as stated: in `Title: The Title: of it` the label
`Title:` occurs again in the remainder; `replace` removes both
occurrences, so the parsed title is `The  of it` and not the trimmed
remainder after the label, `The Title: of it`. -/
theorem label_remainder_cex :
    parse_plot_ideas (pystr "Title: The Title: of it") =
      [{ title := some (pystr "The  of it") }] ∧
    pystr "The  of it" ≠ pyStrip (pystr " The Title: of it") :=
  ⟨by decide, by decide⟩

/-- Witness for C5's amended theorem at concrete label lines. -/
theorem label_remainder_witness :
    (stepPlot {} (pystr "Hook: catchy")).current.get PlotField.hook =
        some (pyStrip (pystr " catchy")) ∧
    pyStrip (pystr " catchy") = pystr "catchy" ∧
    (stepChar {} (pystr "Flaw: proud")).current.get CharField.flaw =
        some (pyStrip (pystr " proud")) :=
  ⟨label_remainder_restored.1 {} _ (pystr " catchy") _ (by decide) (by decide) (by decide),
   by decide,
   label_remainder_restored.2 {} _ (pystr " proud") (pystr "Flaw:") _
     (by decide) (by decide) (by decide) (by decide)⟩

/-- C9 (amended).  Bilingual alias equivalence: replacing the label of one
line by another alias that maps to the same field, keeping the remainder
of the line identical, yields exactly the same parse — provided neither
label reoccurs inside the shared remainder (`replace` removes every
occurrence of the matched label, so a remainder containing the replaced
label parses differently). -/
theorem bilingual_alias_equiv :
    ∀ (xs ys : List PyStr) (lE lC rest labE labC : PyStr) (f : CharField),
      findCharLabel (pyStrip lE) = some (f, labE) →
      findCharLabel (pyStrip lC) = some (f, labC) →
      labE ≠ [] → labC ≠ [] →
      pyStrip lE = labE ++ rest →
      pyStrip lC = labC ++ rest →
      pyContainsSub rest labE = false →
      pyContainsSub rest labC = false →
      parseCharsL (xs ++ lE :: ys) = parseCharsL (xs ++ lC :: ys) := by
  intro xs ys lE lC rest labE labC f hE hC hnE hnC hlE hlC hoE hoC
  have hstep : ∀ st, stepChar st lE = stepChar st lC := by
    intro st
    simp only [stepChar, hE, hC]
    rw [hlE, hlC, pyDel_label _ _ hnE hoE, pyDel_label _ _ hnC hoC]
  unfold parseCharsL
  rw [List.foldl_append, List.foldl_append, List.foldl_cons, List.foldl_cons, hstep]

/-- Counterexample to C9 as stated: with a value that itself contains the
English label, swapping `Name:` for `姓名:` changes the parse, because
`replace` removes every occurrence of the matched label only. -/
theorem bilingual_alias_cex :
    parse_characters (pystr "Name: Name: Bob") ≠
      parse_characters (pystr "姓名: Name: Bob") ∧
    parse_characters (pystr "Name: Name: Bob") = [{ name := some (pystr "Bob") }] ∧
    parse_characters (pystr "姓名: Name: Bob") = [{ name := some (pystr "Name: Bob") }] :=
  ⟨by decide, by decide, by decide⟩

/-- Witness for C9's amended theorem: `Name: Alice` and `姓名: Alice`
parse identically in context. -/
theorem bilingual_alias_witness :
    parseCharsL ([pystr "Role: captain"] ++ pystr "Name: Alice" :: [pystr "Age: 30"]) =
      parseCharsL ([pystr "Role: captain"] ++ pystr "姓名: Alice" :: [pystr "Age: 30"]) :=
  bilingual_alias_equiv _ _ _ _ (pystr " Alice") (pystr "Name:") (pystr "姓名:") CharField.name
    (by decide) (by decide) (by decide) (by decide) (by decide) (by decide) (by decide) (by decide)

/-- The `Title:` branch: flush the current record (when non-empty) and
start a fresh one. -/
theorem stepPlot_title (st : PlotState) (raw : PyStr)
    (h : plotBranch (pyStrip raw) = some PlotField.title) :
    stepPlot st raw =
      { ideas := st.ideas ++ (if st.current.isEmpty then [] else [st.current]),
        current := { title := some (plotFieldVal .title (pyStrip raw)) } } := by
  simp [stepPlot, h]

/-- A non-record-start field branch only updates the current record. -/
theorem stepPlot_field (st : PlotState) (raw : PyStr) (f : PlotField)
    (h : plotBranch (pyStrip raw) = some f) (hf : f ≠ PlotField.title) :
    stepPlot st raw =
      { st with current := st.current.set f (plotFieldVal f (pyStrip raw)) } := by
  cases f with
  | title => exact absurd rfl hf
  | premise => simp [stepPlot, h, PlotIdea.set]
  | conflict => simp [stepPlot, h, PlotIdea.set]
  | hook => simp [stepPlot, h, PlotIdea.set]

/-- Folding the field lines of one block only folds their assignments into
the current record. -/
theorem foldPlot_fields (fls : List (PlotField × PyStr)) :
    ∀ st : PlotState,
      (∀ fl ∈ fls, plotBranch (pyStrip fl.2) = some fl.1 ∧ fl.1 ≠ PlotField.title) →
      List.foldl stepPlot st (fls.map Prod.snd) =
        { st with current := (List.foldl
            (fun r fl => r.set fl.1 (plotFieldVal fl.1 (pyStrip fl.2)))
            st.current fls) } := by
  induction fls with
  | nil => intro st _; rfl
  | cons fl fls ih =>
    intro st h
    obtain ⟨hb, ht⟩ := h fl (List.mem_cons_self fl fls)
    rw [List.map_cons, List.foldl_cons, stepPlot_field st fl.2 fl.1 hb ht,
        ih _ fun x hx => h x (List.mem_cons_of_mem fl hx), List.foldl_cons]

/-- Setting a non-title field keeps the title. -/
theorem plot_title_set_of_ne (r : PlotIdea) (f : PlotField) (v : PyStr)
    (hf : f ≠ PlotField.title) : (r.set f v).title = r.title := by
  cases f with
  | title => exact absurd rfl hf
  | premise => rfl
  | conflict => rfl
  | hook => rfl

/-- Folding non-title assignments keeps the title. -/
theorem foldSets_title (fls : List (PlotField × PyStr)) :
    ∀ r : PlotIdea, (∀ fl ∈ fls, fl.1 ≠ PlotField.title) →
      (List.foldl (fun r fl => r.set fl.1 (plotFieldVal fl.1 (pyStrip fl.2))) r fls).title =
        r.title := by
  induction fls with
  | nil => intro r _; rfl
  | cons fl fls ih =>
    intro r h
    rw [List.foldl_cons, ih _ fun x hx => h x (List.mem_cons_of_mem fl hx),
        plot_title_set_of_ne r fl.1 _ (h fl (List.mem_cons_self fl fls))]

/-- A block's record has its title set, so it is a non-empty dict. -/
theorem mkPlotRec_isEmpty (b : PlotBlock)
    (hf : ∀ fl ∈ b.fields, fl.1 ≠ PlotField.title) :
    (mkPlotRec b).isEmpty = false := by
  have ht : (mkPlotRec b).title = some (plotFieldVal .title (pyStrip b.titleLine)) :=
    foldSets_title b.fields _ hf
  simp [PlotIdea.isEmpty, ht]

/-- Folding rendered blocks from a state with a non-empty current record
flushes that record and then appends one record per block. -/
theorem foldPlot_renderBlocks (bs : List PlotBlock) :
    ∀ st : PlotState, st.current.isEmpty = false → (∀ b ∈ bs, PlotBlockWF b) →
      finishPlot (List.foldl stepPlot st (renderBlocks bs)) =
        st.ideas ++ [st.current] ++ bs.map mkPlotRec := by
  induction bs with
  | nil => intro st h _; simp [renderBlocks, finishPlot, h]
  | cons b bs ih =>
    intro st h hwf
    obtain ⟨ht, hf⟩ := hwf b (List.mem_cons_self b bs)
    rw [renderBlocks, List.foldl_append, renderPlotBlock, List.foldl_cons,
        stepPlot_title st b.titleLine ht, foldPlot_fields b.fields _ hf,
        ih _ (mkPlotRec_isEmpty b fun fl h' => (hf fl h').2)
          (fun b' hb' => hwf b' (List.mem_cons_of_mem b hb'))]
    simp [h, mkPlotRec, List.append_assoc]

/-- Field lines of a well-formed block never fire the `Title:` branch. -/
theorem countP_fields_zero (fls : List (PlotField × PyStr))
    (h : ∀ fl ∈ fls, plotBranch (pyStrip fl.2) = some fl.1 ∧ fl.1 ≠ PlotField.title) :
    (fls.map Prod.snd).countP
      (fun l => decide (plotBranch (pyStrip l) = some PlotField.title)) = 0 := by
  induction fls with
  | nil => rfl
  | cons fl fls ih =>
    obtain ⟨hb, ht⟩ := h fl (List.mem_cons_self fl fls)
    rw [List.map_cons, List.countP_cons]
    rw [ih fun x hx => h x (List.mem_cons_of_mem fl hx)]
    simp [hb, ht]

/-- C3 (amended).  Multi-record law on record-block input (a `Title:` line
followed by that record's field lines, repeated — in particular no field
line before the first record start): the parser returns exactly one record
per block, in order, each built from exactly its own block's field lines;
and the rendered input contains the record-start label exactly
`blocks.length` times. -/
theorem multi_record_blocks (blocks : List PlotBlock)
    (h : ∀ b ∈ blocks, PlotBlockWF b) :
    parsePlotIdeasL (renderBlocks blocks) = blocks.map mkPlotRec ∧
    (renderBlocks blocks).countP
      (fun l => decide (plotBranch (pyStrip l) = some PlotField.title)) =
      blocks.length := by
  constructor
  · cases blocks with
    | nil => rfl
    | cons b bs =>
      obtain ⟨ht, hf⟩ := h b (List.mem_cons_self b bs)
      show finishPlot (List.foldl stepPlot {} (renderBlocks (b :: bs))) = _
      rw [renderBlocks, List.foldl_append, renderPlotBlock, List.foldl_cons,
          stepPlot_title _ b.titleLine ht, foldPlot_fields b.fields _ hf,
          foldPlot_renderBlocks bs _ (mkPlotRec_isEmpty b fun fl h' => (hf fl h').2)
            (fun b' hb' => h b' (List.mem_cons_of_mem b hb'))]
      simp [mkPlotRec, PlotIdea.isEmpty]
  · induction blocks with
    | nil => rfl
    | cons b bs ih =>
      obtain ⟨ht, hf⟩ := h b (List.mem_cons_self b bs)
      rw [renderBlocks, List.countP_append, renderPlotBlock, List.countP_cons,
          countP_fields_zero b.fields hf,
          ih fun b' hb' => h b' (List.mem_cons_of_mem b hb')]
      simp [ht, Nat.add_comm]

/-- Witness for C3: two concrete blocks parse to exactly their two
records, the duplicated `Premise:` of the second block resolving to the
later value. -/
theorem multi_record_blocks_witness :
    parsePlotIdeasL (renderBlocks demoBlocks) = demoBlocks.map mkPlotRec ∧
    (renderBlocks demoBlocks).countP
      (fun l => decide (plotBranch (pyStrip l) = some PlotField.title)) = 2 ∧
    demoBlocks.map mkPlotRec =
      [{ title := some (pystr "a"), hook := some (pystr "h") },
       { title := some (pystr "b"), premise := some (pystr "q") }] :=
  ⟨(multi_record_blocks demoBlocks (by decide)).1,
   (multi_record_blocks demoBlocks (by decide)).2,
   by decide⟩

/-- Counterexample to C3 as stated: this input contains the record-start
label `Title:` exactly twice, with a field label (`Hook:`) between the two
occurrences, yet the parser returns three records — the stray
`Premise:` line before the first `Title:` opens a headless extra record. -/
theorem multi_record_cex :
    ((pyLines (pystr "Premise: x\nTitle: a\nHook: h\nTitle: b\nHook: i")).countP
        fun l => decide (plotBranch (pyStrip l) = some PlotField.title)) = 2 ∧
    (parse_plot_ideas (pystr "Premise: x\nTitle: a\nHook: h\nTitle: b\nHook: i")).length = 3 ∧
    parse_plot_ideas (pystr "Premise: x\nTitle: a\nHook: h\nTitle: b\nHook: i") =
      [{ premise := some (pystr "x") },
       { title := some (pystr "a"), hook := some (pystr "h") },
       { title := some (pystr "b"), hook := some (pystr "i") }] :=
  ⟨by decide, by decide, by decide⟩

end NovelAgent

